import Mathlib

/-!
Shallow embedding of the Sumsub/Chatwoot KYC gateway backend
(`backend/server.js`): request signing, applicant creation with dedup,
hosted-link issuance, verification-level normalization, and the
Postgres-backed applicant registry (modelled as a keyed store).

JavaScript request-body values are modelled by `JSValue` (absent fields
destructure to `undefined`); JS truthiness is `truthy`.  Side effects of a
route handler are recorded as an explicit trace of `Event`s: durable-store
reads and writes and outbound provider calls.  The provider's response is
passed in as an `Except` value (an exception thrown by `sumsubFetch`
corresponds to `.error`).
-/

/-- A JavaScript value as it appears in a parsed JSON request body:
`undefined` (absent field), a string, or an integer number. -/
inductive JSValue where
  | undef : JSValue
  | str (s : String) : JSValue
  | num (n : Int) : JSValue
deriving DecidableEq, Repr

/-- JS truthiness restricted to the values of `JSValue`: `undefined`, the
empty string and the number 0 are falsy; everything else is truthy. -/
def truthy : JSValue → Bool
  | .undef => false
  | .str s => s ≠ ""
  | .num n => n ≠ 0

/-- JS string conversion `String(v)` for the values of `JSValue`. -/
def jsToString : JSValue → String
  | .undef => "undefined"
  | .str s => s
  | .num n => toString n

/-- Whitespace as recognized by the JS `trim` builtin (restricted to the
ASCII whitespace characters). -/
def jsSpace (c : Char) : Bool :=
  c = ' ' || c = '\t' || c = '\n' || c = '\r'

/-- The JS `trim` builtin: drop leading and trailing whitespace. -/
def jsTrim (s : String) : String :=
  String.mk (((s.data.dropWhile jsSpace).reverse.dropWhile jsSpace).reverse)

/-- JS numeric conversion `Number(v)` for the values of `JSValue`;
`none` stands for `NaN` (which the integer DB column then rejects). -/
def jsNumber : JSValue → Option Int
  | .undef => none
  | .num n => some n
  | .str s => if jsTrim s = "" then some 0 else (jsTrim s).toInt?

/-- A row of the `kyc_applicants` table
(`external_user_id, brand, inbox_id, applicant_id, created_at, updated_at`).
Timestamps are `Nat` (the value of `NOW()` at write time). -/
structure Row where
  external_user_id : String
  brand : String
  inbox_id : Int
  applicant_id : String
  created_at : Nat
  updated_at : Nat
deriving DecidableEq, Repr

/-- The durable store: the `kyc_applicants` table keyed uniquely by
`external_user_id` (point lookup, as in `getApplicantFromDb`). -/
def Store := String → Option Row

/-- Argument record of `upsertApplicantInDb`. -/
structure UpsertArgs where
  externalUserId : String
  brand : String
  inboxId : Int
  applicantId : String
deriving DecidableEq, Repr

/-- `upsertApplicantInDb`: `INSERT ... ON CONFLICT (external_user_id) DO
UPDATE SET brand, inbox_id, applicant_id, updated_at = NOW()` keeping
`created_at`, `RETURNING` the resulting row.  `now` is the value of
`NOW()`.  Returns the row together with the updated store. -/
def upsertApplicantInDb (store : Store) (now : Nat) (a : UpsertArgs) :
    Row × Store :=
  match store a.externalUserId with
  | none =>
      let row : Row :=
        { external_user_id := a.externalUserId, brand := a.brand,
          inbox_id := a.inboxId, applicant_id := a.applicantId,
          created_at := now, updated_at := now }
      (row, fun k => if k = a.externalUserId then some row else store k)
  | some old =>
      let row : Row :=
        { old with brand := a.brand, inbox_id := a.inboxId,
                   applicant_id := a.applicantId, updated_at := now }
      (row, fun k => if k = a.externalUserId then some row else store k)

/-- `signSumsubRequest`: from the current time in milliseconds
(`Date.now()`), the method, the path with query and the body string,
compute the timestamp `ts = Math.floor(Date.now() / 1000)` (as a string)
and the signature `HMAC_SHA256(secret, ts + method.toUpperCase() +
pathWithQuery + bodyString)`.  The HMAC primitive comes from the external
`crypto` library and is passed in as a function `hmacSHA256 key message`. -/
def signSumsubRequest (hmacSHA256 : String → String → String)
    (secretKey : String) (nowMs : Nat)
    (method pathWithQuery bodyString : String) : String × String :=
  let ts := toString (nowMs / 1000)
  let stringToSign := ts ++ method.toUpper ++ pathWithQuery ++ bodyString
  (ts, hmacSHA256 secretKey stringToSign)

/-- Modelled from the spec: the signature contract of §4.1 —
`signature = HMAC_SHA256(secretKey, timestamp + uppercaseMethod +
pathWithQuery + bodyString)` for a given timestamp in whole seconds. -/
def specSignature (hmacSHA256 : String → String → String)
    (secretKey : String) (ts : Nat)
    (method pathWithQuery bodyString : String) : String :=
  hmacSHA256 secretKey
    (toString ts ++ method.toUpper ++ pathWithQuery ++ bodyString)

/-- Whether the string `msg` mentions `pat` as a contiguous substring
(used to state that an error message names a given field). -/
def strMentions (msg pat : String) : Bool :=
  msg.toList.tails.any (fun t => pat.toList.isPrefixOf t)

/-- The `fixedInfo` object of the applicant-creation body; `middleName`
is an optional field (absent when `none`). -/
structure FixedInfo where
  firstName : JSValue
  lastName : JSValue
  middleName : Option String
deriving DecidableEq, Repr

/-- Body of `POST /resources/applicants?levelName=...`. -/
structure CreateBody where
  externalUserId : JSValue
  levelName : JSValue
  fixedInfo : FixedInfo
deriving DecidableEq, Repr

/-- Body of the websdkLink request (POST resources, sdkIntegrations,
levels, websdkLink); `applicantIdentifiers` holds the optional trimmed
email. -/
structure LinkBody where
  levelName : JSValue
  userId : JSValue
  ttlInSecs : Nat
  applicantIdentifiers : Option String
deriving DecidableEq, Repr

/-- One observable side effect of a route handler: a durable-store read
or write (keyed by `external_user_id`), or an outbound provider call
carrying the transmitted body. -/
inductive Event where
  | dbRead (key : String) : Event
  | dbWrite (key : String) : Event
  | createCall (body : CreateBody) : Event
  | linkCall (body : LinkBody) : Event
deriving DecidableEq, Repr

/-- Whether a trace contains a durable-store write. -/
def hasDbWrite (tr : List Event) : Bool :=
  tr.any fun e => match e with | .dbWrite _ => true | _ => false

/-- Whether a trace contains an outbound provider call. -/
def hasProviderCall (tr : List Event) : Bool :=
  tr.any fun e => match e with
    | .createCall _ => true
    | .linkCall _ => true
    | _ => false

/-- The request body of `POST /api/kyc/create-applicant` as destructured
by the handler (absent fields are `undefined`). -/
structure CreateReq where
  externalUserId : JSValue
  brand : JSValue
  inboxId : JSValue
  levelName : JSValue
  firstName : JSValue
  lastName : JSValue
  middleName : JSValue
deriving DecidableEq, Repr

/-- The provider's applicant-creation response as far as the handler
inspects it: the `id` and `applicantId` fields, with `""` standing for
an absent or empty (hence falsy) field. -/
structure CreatedResp where
  id : String
  applicantId : String
deriving DecidableEq, Repr

/-- Outcome of the `POST /api/kyc/create-applicant` handler. -/
inductive CreateResult where
  | validationError (msg : String) : CreateResult
  | reused (externalUserId : JSValue) (applicantId : String) (db : Row) :
      CreateResult
  | providerError (msg : String) : CreateResult
  | missingIdError (msg : String) : CreateResult
  | dbError (msg : String) : CreateResult
  | created (externalUserId : JSValue) (applicantId : String) (db : Row) :
      CreateResult
deriving DecidableEq, Repr

/-- The applicant-creation body built by the handler: `externalUserId`,
`levelName`, and `fixedInfo` with `firstName`, `lastName`, and
`middleName` only when `middleName && String(middleName).trim()` is
truthy, in which case it is the trimmed string. -/
def createBodyOf (req : CreateReq) : CreateBody :=
  { externalUserId := req.externalUserId,
    levelName := req.levelName,
    fixedInfo :=
      { firstName := req.firstName,
        lastName := req.lastName,
        middleName :=
          if truthy req.middleName ∧ jsTrim (jsToString req.middleName) ≠ ""
          then some (jsTrim (jsToString req.middleName))
          else none } }

/-- The part of the create-applicant handler after the dedup check:
provider call, applicant-id extraction, store write.  `key` is the
stringified `externalUserId` already used for the dedup lookup. -/
def createApplicantFresh (store : Store) (now : Nat)
    (providerResp : Except String CreatedResp) (req : CreateReq)
    (key : String) : CreateResult × Store × List Event :=
  let body := createBodyOf req
  match providerResp with
  | .error e => (.providerError e, store, [.dbRead key, .createCall body])
  | .ok created =>
      let applicantId :=
        if created.id ≠ "" then created.id else created.applicantId
      if applicantId = "" then
        (.missingIdError
           "Created applicant but could not find applicantId in Sumsub response.",
         store, [.dbRead key, .createCall body])
      else
        match jsNumber req.inboxId with
        | none =>
            (.dbError "invalid input syntax for type integer",
             store, [.dbRead key, .createCall body])
        | some n =>
            let r := upsertApplicantInDb store now
              { externalUserId := key, brand := jsToString req.brand,
                inboxId := n, applicantId := applicantId }
            (.created req.externalUserId applicantId r.1, r.2,
             [.dbRead key, .createCall body, .dbWrite key])

/-- The create-applicant route handler (POST api, kyc, create-applicant).
`store` is the durable store, `now` the DB clock, and `providerResp` what
`sumsubFetch` would produce if invoked (`.error` = a thrown error,
configuration or HTTP).  Returns the handler's result, the store after
the call, and the trace of side effects. -/
def createApplicant (store : Store) (now : Nat)
    (providerResp : Except String CreatedResp) (req : CreateReq) :
    CreateResult × Store × List Event :=
  if ¬(truthy req.externalUserId ∧ truthy req.brand ∧
       truthy req.inboxId ∧ truthy req.levelName) then
    (.validationError
       "Missing required fields: externalUserId, brand, inboxId, levelName",
     store, [])
  else if ¬(truthy req.firstName ∧ truthy req.lastName) then
    (.validationError "Missing required fields: firstName and lastName",
     store, [])
  else
    let key := jsToString req.externalUserId
    match store key with
    | some existing =>
        if existing.applicant_id ≠ "" then
          (.reused req.externalUserId existing.applicant_id existing,
           store, [.dbRead key])
        else
          createApplicantFresh store now providerResp req key
    | none => createApplicantFresh store now providerResp req key

/-- The request body of the websdk-link route as destructured by the
handler (absent fields are `undefined`). -/
structure LinkReq where
  externalUserId : JSValue
  levelName : JSValue
  email : JSValue
deriving DecidableEq, Repr

/-- The provider's link-issuance response as far as the handler inspects
it: the `url` field, with `""` standing for an absent or empty field. -/
structure LinkResp where
  url : String
deriving DecidableEq, Repr

/-- Outcome of the websdk-link route handler. -/
inductive LinkResult where
  | validationError (msg : String) : LinkResult
  | preconditionError (msg : String) : LinkResult
  | providerError (msg : String) : LinkResult
  | missingUrlError (msg : String) : LinkResult
  | ok (url : String) (ttlInSecs : Nat) (externalUserId : JSValue)
      (levelName : JSValue) : LinkResult
deriving DecidableEq, Repr

/-- The link-issuance body built by the handler: `levelName`, `userId`,
`ttlInSecs = 1800`, and `applicantIdentifiers` with the trimmed email
only when `email && String(email).trim()` is truthy. -/
def linkBodyOf (req : LinkReq) : LinkBody :=
  { levelName := req.levelName,
    userId := req.externalUserId,
    ttlInSecs := 1800,
    applicantIdentifiers :=
      if truthy req.email ∧ jsTrim (jsToString req.email) ≠ ""
      then some (jsTrim (jsToString req.email))
      else none }

/-- The websdk-link route handler (POST api, kyc, generate-websdk-link):
validate, require an existing mapping with a non-empty `applicant_id`,
call the provider, extract `url`, and return the link without storing
it.  Same conventions as `createApplicant`. -/
def generateHostedLink (store : Store)
    (providerResp : Except String LinkResp) (req : LinkReq) :
    LinkResult × Store × List Event :=
  if ¬(truthy req.externalUserId ∧ truthy req.levelName) then
    (.validationError "Missing required fields: externalUserId, levelName",
     store, [])
  else
    let key := jsToString req.externalUserId
    let proceed :=
      let body := linkBodyOf req
      match providerResp with
      | .error e =>
          (LinkResult.providerError e, store, [Event.dbRead key, .linkCall body])
      | .ok data =>
          if data.url = "" then
            (.missingUrlError "Sumsub response did not include a url field.",
             store, [.dbRead key, .linkCall body])
          else
            (.ok data.url body.ttlInSecs req.externalUserId req.levelName,
             store, [.dbRead key, .linkCall body])
    match store key with
    | some existing =>
        if existing.applicant_id ≠ "" then proceed
        else
          (.preconditionError
             "No applicant found in DB for this externalUserId. Create applicant first.",
           store, [.dbRead key])
    | none =>
        (.preconditionError
           "No applicant found in DB for this externalUserId. Create applicant first.",
         store, [.dbRead key])

/-- An element of the provider's levels list as far as the handler
inspects it: the `name`, `id` and `levelName` fields, with `""` standing
for an absent, null or empty (falsy) field. -/
structure LevelItem where
  name : String
  id : String
  levelName : String
deriving DecidableEq, Repr

/-- The provider's levels payload as far as the handler inspects it:
`items` is `some l` when the top-level `items` field is an array `l`,
and `listItems` is `some l` when `list.items` is an array `l`
(`none` = absent or not an array). -/
structure LevelsPayload where
  items : Option (List LevelItem)
  listItems : Option (List LevelItem)
deriving DecidableEq, Repr

/-- The per-item extraction `x?.name || x?.id || x?.levelName`. -/
def levelNameOf (x : LevelItem) : String :=
  if x.name ≠ "" then x.name
  else if x.id ≠ "" then x.id
  else x.levelName

/-- The items selection of the levels handler:
`(Array.isArray(data?.items) && data.items) ||
(Array.isArray(data?.list?.items) && data.list.items) || []`.
An array, even empty, is truthy in JS, so a present top-level `items`
array always wins. -/
def levelItems (data : LevelsPayload) : List LevelItem :=
  match data.items with
  | some l => l
  | none => match data.listItems with
            | some l => l
            | none => []

/-- The `levelNames` computation of the levels route handler (GET api,
sumsub, levels): map each item through the ordered fallback extraction
and `filter(Boolean)`. -/
def levelNames (data : LevelsPayload) : List String :=
  ((levelItems data).map levelNameOf).filter (fun s => s ≠ "")

/-! Concrete sample data used by witness and counterexample theorems. -/

/-- A sample stored mapping row for external user `u1`. -/
def rowU1 : Row := ⟨"u1", "b", 5, "apl-1", 10, 10⟩

/-- The empty store. -/
def emptyStore : Store := fun _ => none

/-- A store holding exactly the mapping `rowU1` under key `u1`. -/
def storeU1 : Store := fun k => if k = "u1" then some rowU1 else none

/-- A fully valid create-applicant request for external user `u1`. -/
def reqU1 : CreateReq :=
  ⟨.str "u1", .str "b", .num 5, .str "lvl", .str "F", .str "L", .undef⟩

/-- A second valid create-applicant request for `u1` with different
names and metadata. -/
def reqU1b : CreateReq :=
  ⟨.str "u1", .str "b2", .num 7, .str "lvl", .str "X", .str "Y", .undef⟩

/-! Theorems. -/

/-- Claim C2: for every method, path with query, body string and fixed
clock value, the signer's signature equals HMAC-SHA256 keyed by the
configured secret over the exact concatenation of the timestamp (whole
Unix seconds), the uppercased method, the path with query and the body
string — the contract `specSignature` modelled from the spec — and the
returned timestamp is that whole-second value; being a function of its
inputs, the output is the same on every run with those fixed inputs. -/
theorem signSumsubRequest_correct (hmacSHA256 : String → String → String)
    (secretKey : String) (nowMs : Nat)
    (method pathWithQuery bodyString : String) :
    (signSumsubRequest hmacSHA256 secretKey nowMs
        method pathWithQuery bodyString).2
      = specSignature hmacSHA256 secretKey (nowMs / 1000)
          method pathWithQuery bodyString
    ∧ (signSumsubRequest hmacSHA256 secretKey nowMs
        method pathWithQuery bodyString).1
      = toString (nowMs / 1000) :=
  ⟨rfl, rfl⟩

/-- Claim C5: the levels handler takes the top-level items array when
present (even alongside a nested one), otherwise the array nested under
the list wrapper, otherwise the empty list; each item maps to `name`
falling back to `id` falling back to `levelName`, and empty results are
dropped; the three concrete payloads of the spec evaluate as stated. -/
theorem levelNames_normalization :
    (∀ (l : List LevelItem) (o : Option (List LevelItem)),
      levelItems ⟨some l, o⟩ = l)
    ∧ (∀ l : List LevelItem, levelItems ⟨none, some l⟩ = l)
    ∧ levelItems ⟨none, none⟩ = []
    ∧ (∀ n i ln : String,
        levelNameOf ⟨n, i, ln⟩
          = if n ≠ "" then n else if i ≠ "" then i else ln)
    ∧ (∀ data : LevelsPayload,
        levelNames data
          = ((levelItems data).map levelNameOf).filter (fun s => s ≠ ""))
    ∧ levelNames ⟨some [⟨"basic-kyc", "", ""⟩, ⟨"", "x1", ""⟩], none⟩
        = ["basic-kyc", "x1"]
    ∧ levelNames ⟨none, some [⟨"", "", "lvl-a"⟩]⟩ = ["lvl-a"]
    ∧ levelNames ⟨none, none⟩ = [] :=
  ⟨fun _ _ => rfl, fun _ => rfl, rfl, fun _ _ _ => rfl, fun _ => rfl,
   by decide, by decide, rfl⟩

/-- Claim C7: `upsertApplicantInDb` inserts a fresh row (with both
timestamps set to now) when no row exists for the key; when a row
exists it overwrites exactly `brand`, `inbox_id`, `applicant_id` and
`updated_at`, leaving `created_at` and the key `external_user_id`
unchanged; in both cases it returns the resulting row, stores it under
the key, and leaves every other key of the store untouched. -/
theorem upsertApplicantInDb_spec (store : Store) (now : Nat)
    (a : UpsertArgs) :
    (store a.externalUserId = none →
      (upsertApplicantInDb store now a).1
        = ⟨a.externalUserId, a.brand, a.inboxId, a.applicantId, now, now⟩)
    ∧ (∀ old, store a.externalUserId = some old →
        (upsertApplicantInDb store now a).1
          = { old with brand := a.brand, inbox_id := a.inboxId,
                       applicant_id := a.applicantId, updated_at := now }
        ∧ (upsertApplicantInDb store now a).1.created_at = old.created_at
        ∧ (upsertApplicantInDb store now a).1.external_user_id
            = old.external_user_id)
    ∧ (upsertApplicantInDb store now a).2 a.externalUserId
        = some (upsertApplicantInDb store now a).1
    ∧ (∀ k, k ≠ a.externalUserId →
        (upsertApplicantInDb store now a).2 k = store k) := by
  refine ⟨?_, ?_, ?_, ?_⟩
  · intro h
    simp only [upsertApplicantInDb, h]
  · intro old h
    refine ⟨?_, ?_, ?_⟩ <;> simp [upsertApplicantInDb, h]
  · unfold upsertApplicantInDb
    cases h : store a.externalUserId <;> simp
  · intro k hk
    unfold upsertApplicantInDb
    cases h : store a.externalUserId <;> simp [hk]

/-- Witness for C7 at concrete inputs: inserting into the empty store
and updating the existing row of `storeU1`. -/
theorem upsertApplicantInDb_spec_witness :
    ((upsertApplicantInDb emptyStore 20 ⟨"u1", "b", 5, "apl-1"⟩).1
        = ⟨"u1", "b", 5, "apl-1", 20, 20⟩)
    ∧ ((upsertApplicantInDb storeU1 30 ⟨"u1", "b2", 7, "apl-2"⟩).1
          = { rowU1 with brand := "b2", inbox_id := 7,
                         applicant_id := "apl-2", updated_at := 30 }
        ∧ (upsertApplicantInDb storeU1 30 ⟨"u1", "b2", 7, "apl-2"⟩).1.created_at
            = rowU1.created_at
        ∧ (upsertApplicantInDb storeU1 30 ⟨"u1", "b2", 7, "apl-2"⟩).1.external_user_id
            = rowU1.external_user_id)
    ∧ (upsertApplicantInDb storeU1 30 ⟨"u1", "b2", 7, "apl-2"⟩).2 "u2"
        = storeU1 "u2" :=
  ⟨(upsertApplicantInDb_spec emptyStore 20 ⟨"u1", "b", 5, "apl-1"⟩).1 rfl,
   (upsertApplicantInDb_spec storeU1 30 ⟨"u1", "b2", 7, "apl-2"⟩).2.1 rowU1
     (by decide),
   (upsertApplicantInDb_spec storeU1 30 ⟨"u1", "b2", 7, "apl-2"⟩).2.2.2 "u2"
     (by decide)⟩

/-- A create-applicant request missing both `externalUserId` (first
validation group) and `lastName` (second group), all other required
fields present. -/
def reqMissingBoth : CreateReq :=
  ⟨.undef, .str "b", .num 5, .str "lvl", .str "F", .undef, .undef⟩

/-- Counterexample to claim C3 as stated: for the request missing both
`externalUserId` and `lastName`, the handler returns the first-group
validation error, whose message does not name the missing field
`lastName` (it names only externalUserId, brand, inboxId, levelName). -/
theorem createApplicant_validation_counterexample :
    (createApplicant emptyStore 0 (.ok ⟨"apl-1", ""⟩) reqMissingBoth).1
      = .validationError
          "Missing required fields: externalUserId, brand, inboxId, levelName"
    ∧ strMentions
        "Missing required fields: externalUserId, brand, inboxId, levelName"
        "lastName" = false
    ∧ truthy reqMissingBoth.lastName = false := by
  refine ⟨by decide, by decide, by decide⟩

/-- Claim C3 (amended): a create-applicant request missing any of the
six required fields returns a validation error with an empty effect
trace (zero network calls, zero store reads or writes) and an unchanged
store; the error message names every field of the first checked group
(externalUserId, brand, inboxId, levelName) when any of those is
missing, and otherwise names firstName and lastName — so it always
names the missing fields of that group, but a missing name field is not
named when an identity field is missing too. -/
theorem createApplicant_validation_short_circuit (store : Store)
    (now : Nat) (providerResp : Except String CreatedResp)
    (req : CreateReq) :
    (¬(truthy req.externalUserId ∧ truthy req.brand ∧
       truthy req.inboxId ∧ truthy req.levelName) →
      createApplicant store now providerResp req
        = (.validationError
             "Missing required fields: externalUserId, brand, inboxId, levelName",
           store, [])
      ∧ ∀ f ∈ (["externalUserId", "brand", "inboxId", "levelName"] :
                List String),
          strMentions
            "Missing required fields: externalUserId, brand, inboxId, levelName"
            f = true)
    ∧ ((truthy req.externalUserId ∧ truthy req.brand ∧
        truthy req.inboxId ∧ truthy req.levelName) →
       ¬(truthy req.firstName ∧ truthy req.lastName) →
      createApplicant store now providerResp req
        = (.validationError "Missing required fields: firstName and lastName",
           store, [])
      ∧ ∀ f ∈ (["firstName", "lastName"] : List String),
          strMentions "Missing required fields: firstName and lastName" f
            = true) := by
  constructor
  · intro h1
    refine ⟨?_, by decide⟩
    unfold createApplicant
    rw [if_pos h1]
  · intro h1 h2
    refine ⟨?_, by decide⟩
    unfold createApplicant
    rw [if_neg (not_not_intro h1), if_pos h2]

/-- Witness for C3 (amended) at a concrete input: a request missing
only `lastName` gets the second-group message, which names it. -/
theorem createApplicant_validation_short_circuit_witness :
    createApplicant emptyStore 0 (.ok ⟨"apl-1", ""⟩)
        ⟨.str "u1", .str "b", .num 5, .str "lvl", .str "F", .undef, .undef⟩
      = (.validationError "Missing required fields: firstName and lastName",
         emptyStore, [])
    ∧ ∀ f ∈ (["firstName", "lastName"] : List String),
        strMentions "Missing required fields: firstName and lastName" f
          = true :=
  (createApplicant_validation_short_circuit emptyStore 0 (.ok ⟨"apl-1", ""⟩)
      ⟨.str "u1", .str "b", .num 5, .str "lvl", .str "F", .undef, .undef⟩).2
    (by decide) (by decide)

/-- Claim C10: required-field presence is decided by JS truthiness, so a
create-applicant request whose `inboxId` is the number 0 — a present,
valid integer — is rejected as a validation error with no network or
store effect; likewise any request in which one of the string fields is
the empty string. -/
theorem createApplicant_falsy_presence (store : Store) (now : Nat)
    (providerResp : Except String CreatedResp) (req : CreateReq) :
    (req.inboxId = .num 0 →
      createApplicant store now providerResp req
        = (.validationError
             "Missing required fields: externalUserId, brand, inboxId, levelName",
           store, []))
    ∧ (req.externalUserId = .str "" ∨ req.brand = .str ""
        ∨ req.levelName = .str "" →
      createApplicant store now providerResp req
        = (.validationError
             "Missing required fields: externalUserId, brand, inboxId, levelName",
           store, []))
    ∧ (req.firstName = .str "" ∨ req.lastName = .str "" →
      ∃ msg, createApplicant store now providerResp req
        = (.validationError msg, store, [])) := by
  refine ⟨?_, ?_, ?_⟩
  · intro h
    unfold createApplicant
    rw [if_pos]
    intro hcon
    exact absurd hcon.2.2.1 (by simp [h, truthy])
  · intro h
    unfold createApplicant
    rw [if_pos]
    intro hcon
    rcases h with h | h | h
    · exact absurd hcon.1 (by simp [h, truthy])
    · exact absurd hcon.2.1 (by simp [h, truthy])
    · exact absurd hcon.2.2.2 (by simp [h, truthy])
  · intro h
    by_cases h1 : (truthy req.externalUserId ∧ truthy req.brand ∧
       truthy req.inboxId ∧ truthy req.levelName)
    · refine ⟨"Missing required fields: firstName and lastName", ?_⟩
      unfold createApplicant
      rw [if_neg (not_not_intro h1), if_pos]
      intro hcon
      rcases h with h | h
      · exact absurd hcon.1 (by simp [h, truthy])
      · exact absurd hcon.2 (by simp [h, truthy])
    · refine ⟨"Missing required fields: externalUserId, brand, inboxId, levelName", ?_⟩
      unfold createApplicant
      rw [if_pos h1]

/-- Witness for C10 at concrete inputs: `inboxId = 0` and an
empty-string `lastName`, each with all other fields present. -/
theorem createApplicant_falsy_presence_witness :
    (createApplicant emptyStore 0 (.ok ⟨"apl-1", ""⟩)
        ⟨.str "u1", .str "b", .num 0, .str "lvl", .str "F", .str "L", .undef⟩
      = (.validationError
           "Missing required fields: externalUserId, brand, inboxId, levelName",
         emptyStore, []))
    ∧ ∃ msg, createApplicant emptyStore 0 (.ok ⟨"apl-1", ""⟩)
        ⟨.str "u1", .str "b", .num 5, .str "lvl", .str "F", .str "", .undef⟩
      = (.validationError msg, emptyStore, []) :=
  ⟨(createApplicant_falsy_presence emptyStore 0 (.ok ⟨"apl-1", ""⟩)
      ⟨.str "u1", .str "b", .num 0, .str "lvl", .str "F", .str "L", .undef⟩).1
    rfl,
   (createApplicant_falsy_presence emptyStore 0 (.ok ⟨"apl-1", ""⟩)
      ⟨.str "u1", .str "b", .num 5, .str "lvl", .str "F", .str "", .undef⟩).2.2
    (Or.inr rfl)⟩

/-- If the fresh path of the create-applicant handler reports a newly
created applicant, the reported id is non-empty, the returned row
carries it, and the row is stored under the key. -/
theorem createApplicantFresh_created_inv (store : Store) (now : Nat)
    (pr : Except String CreatedResp) (req : CreateReq) (key : String)
    (e : JSValue) (aid : String) (row : Row)
    (h : (createApplicantFresh store now pr req key).1 = .created e aid row) :
    aid ≠ "" ∧ row.applicant_id = aid
    ∧ (createApplicantFresh store now pr req key).2.1 key = some row := by
  cases pr with
  | error msg => simp [createApplicantFresh] at h
  | ok cr =>
    by_cases hid : (if cr.id = "" then cr.applicantId else cr.id) = ""
    · simp [createApplicantFresh, hid] at h
    · cases hnum : jsNumber req.inboxId with
      | none =>
        simp [createApplicantFresh, hid, hnum] at h
      | some n =>
        simp [createApplicantFresh, hid, hnum] at h ⊢
        obtain ⟨he, ha, hrow⟩ := h
        subst ha hrow
        refine ⟨hid, ?_, ?_⟩
        · cases hst : store key <;> simp [upsertApplicantInDb, hst]
        · cases hst : store key <;> simp [upsertApplicantInDb, hst]

/-- If the create-applicant handler reports a newly created applicant,
then validation passed on all six required fields, the reported id is
non-empty, the returned row carries it, and the row is stored under the
stringified `externalUserId`. -/
theorem createApplicant_created_inv (store : Store) (now : Nat)
    (pr : Except String CreatedResp) (req : CreateReq)
    (e : JSValue) (aid : String) (row : Row)
    (h : (createApplicant store now pr req).1 = .created e aid row) :
    (truthy req.externalUserId ∧ truthy req.brand ∧ truthy req.inboxId
      ∧ truthy req.levelName)
    ∧ (truthy req.firstName ∧ truthy req.lastName)
    ∧ aid ≠ "" ∧ row.applicant_id = aid
    ∧ (createApplicant store now pr req).2.1 (jsToString req.externalUserId)
        = some row := by
  by_cases h1 : (truthy req.externalUserId ∧ truthy req.brand ∧
      truthy req.inboxId ∧ truthy req.levelName)
  case neg => simp [createApplicant, h1] at h
  by_cases h2 : (truthy req.firstName ∧ truthy req.lastName)
  case neg => simp [createApplicant, h1, h2] at h
  refine ⟨h1, h2, ?_⟩
  cases hst : store (jsToString req.externalUserId) with
  | none =>
    simp only [createApplicant, if_neg (not_not_intro h1),
      if_neg (not_not_intro h2), hst] at h ⊢
    exact createApplicantFresh_created_inv store now pr req _ e aid row h
  | some existing =>
    by_cases hr : existing.applicant_id = ""
    · simp only [createApplicant] at h ⊢
      simp only [if_neg (not_not_intro h1), if_neg (not_not_intro h2), hst,
        hr, ne_eq, not_true_eq_false, if_false, ite_false] at h ⊢
      exact createApplicantFresh_created_inv store now pr req _ e aid row h
    · simp only [createApplicant] at h
      simp only [if_neg (not_not_intro h1), if_neg (not_not_intro h2), hst] at h
      rw [if_pos hr] at h
      simp at h

/-- Claim C1: when the stored mapping for the request's
`externalUserId` has a non-empty `applicant_id`, a (validation-passing)
create-applicant call returns exactly that applicant id tagged as
reused, leaves the store unchanged, and its trace holds only the dedup
read — no provider creation call and no store write; consequently two
successive calls with the same `externalUserId` (the second possibly
with different names and metadata), the first of which created an
applicant, return the same applicant id both times, the second tagged
as reused. -/
theorem createApplicant_dedup (store : Store) (now now2 : Nat)
    (pr pr2 : Except String CreatedResp) (req req2 : CreateReq) :
    ((truthy req.externalUserId ∧ truthy req.brand ∧ truthy req.inboxId
       ∧ truthy req.levelName) →
     (truthy req.firstName ∧ truthy req.lastName) →
     ∀ row, store (jsToString req.externalUserId) = some row →
       row.applicant_id ≠ "" →
       createApplicant store now pr req
         = (.reused req.externalUserId row.applicant_id row, store,
            [.dbRead (jsToString req.externalUserId)]))
    ∧ (∀ e aid row,
       (createApplicant store now pr req).1 = .created e aid row →
       req2.externalUserId = req.externalUserId →
       (truthy req2.brand ∧ truthy req2.inboxId ∧ truthy req2.levelName) →
       (truthy req2.firstName ∧ truthy req2.lastName) →
       (createApplicant (createApplicant store now pr req).2.1 now2 pr2
           req2).1
         = .reused req2.externalUserId aid row) := by
  constructor
  · intro h1 h2 row hrow hne
    simp only [createApplicant, if_neg (not_not_intro h1),
      if_neg (not_not_intro h2), hrow, if_pos hne]
  · intro e aid row h heq hv2 hv2'
    obtain ⟨hv1, _, hne, hrowid, hstored⟩ :=
      createApplicant_created_inv store now pr req e aid row h
    have ht2 : truthy req2.externalUserId := by rw [heq]; exact hv1.1
    have hkey : jsToString req2.externalUserId
        = jsToString req.externalUserId := by rw [heq]
    have h1b : (truthy req2.externalUserId ∧ truthy req2.brand ∧
        truthy req2.inboxId ∧ truthy req2.levelName) :=
      ⟨ht2, hv2.1, hv2.2.1, hv2.2.2⟩
    generalize hg : (createApplicant store now pr req).2.1 = store2
      at hstored ⊢
    simp only [createApplicant, if_neg (not_not_intro h1b),
      if_neg (not_not_intro hv2'), hkey, hstored]
    rw [if_pos (show row.applicant_id ≠ "" by rw [hrowid]; exact hne)]
    rw [hrowid]

/-- Witness for C1 at concrete inputs: a reuse against `storeU1`, and a
create-then-reuse pair starting from the empty store. -/
theorem createApplicant_dedup_witness :
    createApplicant storeU1 20 (.ok ⟨"apl-9", ""⟩) reqU1
      = (.reused (.str "u1") rowU1.applicant_id rowU1, storeU1,
         [.dbRead "u1"])
    ∧ (createApplicant
        (createApplicant emptyStore 20 (.ok ⟨"apl-2", ""⟩) reqU1).2.1 30
        (.ok ⟨"apl-3", ""⟩) reqU1b).1
      = .reused (.str "u1") "apl-2" ⟨"u1", "b", 5, "apl-2", 20, 20⟩ :=
  ⟨(createApplicant_dedup storeU1 20 20 (.ok ⟨"apl-9", ""⟩)
      (.ok ⟨"apl-9", ""⟩) reqU1 reqU1).1 (by decide) (by decide) rowU1
      (by decide) (by decide),
   (createApplicant_dedup emptyStore 20 30 (.ok ⟨"apl-2", ""⟩)
      (.ok ⟨"apl-3", ""⟩) reqU1 reqU1b).2 (.str "u1") "apl-2"
      ⟨"u1", "b", 5, "apl-2", 20, 20⟩ (by decide) rfl (by decide)
      (by decide)⟩

/-- Case shape of the fresh path: it either fails (provider error,
missing applicant id, or a rejected DB write) with the store unchanged
and a trace of one read and one provider call, or succeeds with the
extracted id (the `id` field falling back to `applicantId`), the upsert
applied, and a trace read, provider call, write. -/
theorem createApplicantFresh_shape (store : Store) (now : Nat)
    (pr : Except String CreatedResp) (req : CreateReq) (key : String) :
    (∃ m, createApplicantFresh store now pr req key
       = (.providerError m, store,
          [.dbRead key, .createCall (createBodyOf req)]))
    ∨ (createApplicantFresh store now pr req key
       = (.missingIdError
            "Created applicant but could not find applicantId in Sumsub response.",
          store, [.dbRead key, .createCall (createBodyOf req)]))
    ∨ (createApplicantFresh store now pr req key
       = (.dbError "invalid input syntax for type integer",
          store, [.dbRead key, .createCall (createBodyOf req)]))
    ∨ (∃ cr n, pr = .ok cr ∧ jsNumber req.inboxId = some n
        ∧ (if cr.id = "" then cr.applicantId else cr.id) ≠ ""
        ∧ createApplicantFresh store now pr req key
          = (.created req.externalUserId
               (if cr.id = "" then cr.applicantId else cr.id)
               (upsertApplicantInDb store now
                 ⟨key, jsToString req.brand, n,
                  if cr.id = "" then cr.applicantId else cr.id⟩).1,
             (upsertApplicantInDb store now
               ⟨key, jsToString req.brand, n,
                if cr.id = "" then cr.applicantId else cr.id⟩).2,
             [.dbRead key, .createCall (createBodyOf req), .dbWrite key])) := by
  cases pr with
  | error msg => exact Or.inl ⟨msg, by simp [createApplicantFresh]⟩
  | ok cr =>
    by_cases hid : (if cr.id = "" then cr.applicantId else cr.id) = ""
    · exact Or.inr (Or.inl (by simp [createApplicantFresh, hid]))
    · cases hnum : jsNumber req.inboxId with
      | none =>
        exact Or.inr (Or.inr (Or.inl
          (by simp [createApplicantFresh, hid, hnum])))
      | some n =>
        refine Or.inr (Or.inr (Or.inr ⟨cr, n, rfl, rfl, hid, ?_⟩))
        simp [createApplicantFresh, hid, hnum]

/-- Case shape of the create-applicant handler: a validation error with
no effects, a dedup reuse with only a store read, or the fresh path
keyed by the stringified `externalUserId`. -/
theorem createApplicant_shape (store : Store) (now : Nat)
    (pr : Except String CreatedResp) (req : CreateReq) :
    (∃ m, createApplicant store now pr req
       = (.validationError m, store, []))
    ∨ (∃ row, store (jsToString req.externalUserId) = some row
        ∧ row.applicant_id ≠ ""
        ∧ createApplicant store now pr req
          = (.reused req.externalUserId row.applicant_id row, store,
             [.dbRead (jsToString req.externalUserId)]))
    ∨ createApplicant store now pr req
        = createApplicantFresh store now pr req
            (jsToString req.externalUserId) := by
  by_cases h1 : (truthy req.externalUserId ∧ truthy req.brand ∧
      truthy req.inboxId ∧ truthy req.levelName)
  case neg =>
    exact Or.inl
      ⟨"Missing required fields: externalUserId, brand, inboxId, levelName",
       by simp only [createApplicant, if_pos h1]⟩
  by_cases h2 : (truthy req.firstName ∧ truthy req.lastName)
  case neg =>
    exact Or.inl ⟨"Missing required fields: firstName and lastName", by
      simp only [createApplicant, if_neg (not_not_intro h1), if_pos h2]⟩
  cases hst : store (jsToString req.externalUserId) with
  | none =>
    refine Or.inr (Or.inr ?_)
    simp only [createApplicant, if_neg (not_not_intro h1),
      if_neg (not_not_intro h2), hst]
  | some existing =>
    by_cases hr : existing.applicant_id = ""
    · refine Or.inr (Or.inr ?_)
      simp only [createApplicant, if_neg (not_not_intro h1),
        if_neg (not_not_intro h2), hst]
      rw [if_neg (not_not_intro hr)]
    · refine Or.inr (Or.inl ⟨existing, rfl, hr, ?_⟩)
      simp only [createApplicant, if_neg (not_not_intro h1),
        if_neg (not_not_intro h2), hst]
      rw [if_pos hr]

/-- When validation passes and the store holds no reusable mapping for
the key (no row, or a row with an empty `applicant_id`), the handler
takes the fresh path. -/
theorem createApplicant_eq_fresh (store : Store) (now : Nat)
    (pr : Except String CreatedResp) (req : CreateReq)
    (h1 : truthy req.externalUserId ∧ truthy req.brand ∧
      truthy req.inboxId ∧ truthy req.levelName)
    (h2 : truthy req.firstName ∧ truthy req.lastName)
    (hnr : ∀ row, store (jsToString req.externalUserId) = some row →
      row.applicant_id = "") :
    createApplicant store now pr req
      = createApplicantFresh store now pr req
          (jsToString req.externalUserId) := by
  simp only [createApplicant, if_neg (not_not_intro h1),
    if_neg (not_not_intro h2)]
  cases hst : store (jsToString req.externalUserId) with
  | none => rfl
  | some existing => simp [hnr existing hst]

/-- Claim C6: the applicant id of a successful creation is extracted
from the provider response as the `id` field falling back to
`applicantId`; when both are absent the (reachable) call fails with the
provider-contract error, the store is unchanged, and the trace holds no
write; and in every run a store write occurs only when the handler
reports a newly created applicant with a confirmed non-empty id. -/
theorem createApplicant_id_extraction (store : Store) (now : Nat)
    (pr : Except String CreatedResp) (req : CreateReq) :
    (∀ cr e aid row, pr = .ok cr →
      (createApplicant store now pr req).1 = .created e aid row →
      aid = if cr.id ≠ "" then cr.id else cr.applicantId)
    ∧ (∀ cr, pr = .ok cr → cr.id = "" → cr.applicantId = "" →
      (truthy req.externalUserId ∧ truthy req.brand ∧
        truthy req.inboxId ∧ truthy req.levelName) →
      (truthy req.firstName ∧ truthy req.lastName) →
      (∀ row, store (jsToString req.externalUserId) = some row →
        row.applicant_id = "") →
      createApplicant store now pr req
        = (.missingIdError
             "Created applicant but could not find applicantId in Sumsub response.",
           store,
           [.dbRead (jsToString req.externalUserId),
            .createCall (createBodyOf req)]))
    ∧ (hasDbWrite (createApplicant store now pr req).2.2 = true →
       ∃ aid row,
         (createApplicant store now pr req).1
             = .created req.externalUserId aid row
         ∧ aid ≠ "") := by
  refine ⟨?_, ?_, ?_⟩
  · intro cr e aid row hpr h
    subst hpr
    rcases createApplicant_shape store now (.ok cr) req with
      ⟨m, hs⟩ | ⟨r, _, _, hs⟩ | hs
    · rw [hs] at h; simp at h
    · rw [hs] at h; simp at h
    · rw [hs] at h
      rcases createApplicantFresh_shape store now (.ok cr) req
          (jsToString req.externalUserId) with
        ⟨m, hf⟩ | hf | hf | ⟨cr', n, hpr', hnum, hid, hf⟩
      · rw [hf] at h; simp at h
      · rw [hf] at h; simp at h
      · rw [hf] at h; simp at h
      · rw [hf] at h
        simp only [Except.ok.injEq] at hpr'
        subst hpr'
        simp only [CreateResult.created.injEq] at h
        rw [← h.2.1, ite_not]
  · intro cr hpr hid1 hid2 h1 h2 hnr
    subst hpr
    rw [createApplicant_eq_fresh store now (.ok cr) req h1 h2 hnr]
    simp [createApplicantFresh, hid1, hid2]
  · intro hw
    rcases createApplicant_shape store now pr req with
      ⟨m, hs⟩ | ⟨r, _, _, hs⟩ | hs
    · rw [hs] at hw; simp [hasDbWrite] at hw
    · rw [hs] at hw; simp [hasDbWrite] at hw
    · rw [hs] at hw ⊢
      rcases createApplicantFresh_shape store now pr req
          (jsToString req.externalUserId) with
        ⟨m, hf⟩ | hf | hf | ⟨cr, n, hpr, hnum, hid, hf⟩
      · rw [hf] at hw; simp [hasDbWrite] at hw
      · rw [hf] at hw; simp [hasDbWrite] at hw
      · rw [hf] at hw; simp [hasDbWrite] at hw
      · rw [hf]
        exact ⟨_, _, rfl, hid⟩

/-- Witness for C6 at a concrete input: a provider response with both
id fields empty leaves the empty store unwritten. -/
theorem createApplicant_id_extraction_witness :
    createApplicant emptyStore 0 (.ok ⟨"", ""⟩) reqU1
      = (.missingIdError
           "Created applicant but could not find applicantId in Sumsub response.",
         emptyStore, [.dbRead "u1", .createCall (createBodyOf reqU1)]) :=
  (createApplicant_id_extraction emptyStore 0 (.ok ⟨"", ""⟩) reqU1).2.1
    ⟨"", ""⟩ rfl rfl rfl (by decide) (by decide)
    (fun row h => by simp [emptyStore] at h)

/-- Claim C8: the provider creation body transmitted by the (fresh
path of the) create-applicant handler is `createBodyOf`; its
`fixedInfo.middleName` field is absent whenever the request's
`middleName` is absent, empty, or whitespace-only, and equals the
trimmed `middleName` whenever it is a non-blank string. -/
theorem createApplicant_middleName (store : Store) (now : Nat)
    (pr : Except String CreatedResp) (req : CreateReq) :
    ((truthy req.externalUserId ∧ truthy req.brand ∧
       truthy req.inboxId ∧ truthy req.levelName) →
     (truthy req.firstName ∧ truthy req.lastName) →
     (∀ row, store (jsToString req.externalUserId) = some row →
       row.applicant_id = "") →
     Event.createCall (createBodyOf req)
       ∈ (createApplicant store now pr req).2.2)
    ∧ (∀ b, Event.createCall b ∈ (createApplicant store now pr req).2.2 →
        b = createBodyOf req)
    ∧ (req.middleName = .undef
        ∨ (∃ s, req.middleName = .str s ∧ jsTrim s = "") →
        (createBodyOf req).fixedInfo.middleName = none)
    ∧ (∀ s, req.middleName = .str s → jsTrim s ≠ "" →
        (createBodyOf req).fixedInfo.middleName = some (jsTrim s)) := by
  refine ⟨?_, ?_, ?_, ?_⟩
  · intro h1 h2 hnr
    rw [createApplicant_eq_fresh store now pr req h1 h2 hnr]
    rcases createApplicantFresh_shape store now pr req
        (jsToString req.externalUserId) with
      ⟨m, hf⟩ | hf | hf | ⟨cr, n, hpr, hnum, hid, hf⟩ <;> rw [hf] <;> simp
  · intro b hb
    rcases createApplicant_shape store now pr req with
      ⟨m, hs⟩ | ⟨r, _, _, hs⟩ | hs <;> rw [hs] at hb
    · simp at hb
    · simp at hb
    · rcases createApplicantFresh_shape store now pr req
          (jsToString req.externalUserId) with
        ⟨m, hf⟩ | hf | hf | ⟨cr, n, hpr, hnum, hid, hf⟩ <;> rw [hf] at hb <;>
        simpa using hb
  · intro h
    rcases h with h | ⟨s, h, hts⟩
    · simp [createBodyOf, h, truthy]
    · simp [createBodyOf, h, jsToString, hts]
  · intro s h hts
    have hs : s ≠ "" := by
      intro he; subst he; exact hts rfl
    simp [createBodyOf, h, truthy, jsToString, hts, hs]

/-- Witness for C8 at concrete inputs: a whitespace-only middle name
is omitted and a padded one is sent trimmed. -/
theorem createApplicant_middleName_witness :
    Event.createCall
        (createBodyOf ⟨.str "u1", .str "b", .num 5, .str "lvl", .str "F",
           .str "L", .str " M "⟩)
      ∈ (createApplicant emptyStore 0 (.ok ⟨"apl-1", ""⟩)
          ⟨.str "u1", .str "b", .num 5, .str "lvl", .str "F", .str "L",
           .str " M "⟩).2.2
    ∧ (createBodyOf ⟨.str "u1", .str "b", .num 5, .str "lvl", .str "F",
         .str "L", .str "  "⟩).fixedInfo.middleName = none
    ∧ (createBodyOf ⟨.str "u1", .str "b", .num 5, .str "lvl", .str "F",
         .str "L", .str " M "⟩).fixedInfo.middleName = some (jsTrim " M ") :=
  ⟨(createApplicant_middleName emptyStore 0 (.ok ⟨"apl-1", ""⟩)
      ⟨.str "u1", .str "b", .num 5, .str "lvl", .str "F", .str "L",
       .str " M "⟩).1 (by decide) (by decide)
      (fun row h => by simp [emptyStore] at h),
   (createApplicant_middleName emptyStore 0 (.ok ⟨"apl-1", ""⟩)
      ⟨.str "u1", .str "b", .num 5, .str "lvl", .str "F", .str "L",
       .str "  "⟩).2.2.1 (Or.inr ⟨"  ", rfl, by decide⟩),
   (createApplicant_middleName emptyStore 0 (.ok ⟨"apl-1", ""⟩)
      ⟨.str "u1", .str "b", .num 5, .str "lvl", .str "F", .str "L",
       .str " M "⟩).2.2.2 " M " rfl (by decide)⟩

/-- Claim C4: a (validation-passing) hosted-link request whose
`externalUserId` has no stored mapping with a non-empty `applicant_id`
returns the precondition-failure error naming \"Create applicant
first\", leaves the store unchanged, and its trace holds only the
lookup read — no provider call, hence no auto-creation. -/
theorem generateHostedLink_precondition (store : Store)
    (pr : Except String LinkResp) (req : LinkReq)
    (h1 : truthy req.externalUserId) (h2 : truthy req.levelName)
    (hnr : ∀ row, store (jsToString req.externalUserId) = some row →
      row.applicant_id = "") :
    generateHostedLink store pr req
      = (.preconditionError
           "No applicant found in DB for this externalUserId. Create applicant first.",
         store, [.dbRead (jsToString req.externalUserId)])
    ∧ hasProviderCall (generateHostedLink store pr req).2.2 = false
    ∧ strMentions
        "No applicant found in DB for this externalUserId. Create applicant first."
        "Create applicant first" = true := by
  have h12 : truthy req.externalUserId = true ∧ truthy req.levelName = true :=
    ⟨h1, h2⟩
  have hmain : generateHostedLink store pr req
      = (.preconditionError
           "No applicant found in DB for this externalUserId. Create applicant first.",
         store, [.dbRead (jsToString req.externalUserId)]) := by
    simp only [generateHostedLink, if_neg (not_not_intro h12)]
    cases hst : store (jsToString req.externalUserId) with
    | none => rfl
    | some existing => simp [hnr existing hst]
  exact ⟨hmain, by rw [hmain]; rfl, by decide⟩

/-- Witness for C4 at a concrete input: a hosted-link request against
the empty store. -/
theorem generateHostedLink_precondition_witness :
    generateHostedLink emptyStore (.ok ⟨"http://x"⟩)
        ⟨.str "u2", .str "lvl", .undef⟩
      = (.preconditionError
           "No applicant found in DB for this externalUserId. Create applicant first.",
         emptyStore, [.dbRead "u2"])
    ∧ hasProviderCall (generateHostedLink emptyStore (.ok ⟨"http://x"⟩)
        ⟨.str "u2", .str "lvl", .undef⟩).2.2 = false
    ∧ strMentions
        "No applicant found in DB for this externalUserId. Create applicant first."
        "Create applicant first" = true :=
  generateHostedLink_precondition emptyStore (.ok ⟨"http://x"⟩)
    ⟨.str "u2", .str "lvl", .undef⟩ (by decide) (by decide)
    (fun row h => by simp [emptyStore] at h)

/-- Case shape of the hosted-link handler: a validation error with no
effects, a precondition error with only the lookup read, or a provider
interaction (thrown error, missing url, or success) with the store
always unchanged. -/
theorem generateHostedLink_shape (store : Store)
    (pr : Except String LinkResp) (req : LinkReq) :
    (∃ m, generateHostedLink store pr req
       = (.validationError m, store, []))
    ∨ (generateHostedLink store pr req
       = (.preconditionError
            "No applicant found in DB for this externalUserId. Create applicant first.",
          store, [.dbRead (jsToString req.externalUserId)]))
    ∨ (∃ m, generateHostedLink store pr req
       = (.providerError m, store,
          [.dbRead (jsToString req.externalUserId),
           .linkCall (linkBodyOf req)]))
    ∨ (generateHostedLink store pr req
       = (.missingUrlError "Sumsub response did not include a url field.",
          store,
          [.dbRead (jsToString req.externalUserId),
           .linkCall (linkBodyOf req)]))
    ∨ (∃ data, pr = .ok data ∧ data.url ≠ ""
        ∧ generateHostedLink store pr req
          = (.ok data.url 1800 req.externalUserId req.levelName, store,
             [.dbRead (jsToString req.externalUserId),
              .linkCall (linkBodyOf req)])) := by
  by_cases h1 : (truthy req.externalUserId ∧ truthy req.levelName)
  case neg =>
    exact Or.inl ⟨"Missing required fields: externalUserId, levelName",
      by simp only [generateHostedLink, if_pos h1]⟩
  cases hst : store (jsToString req.externalUserId) with
  | none =>
    refine Or.inr (Or.inl ?_)
    simp only [generateHostedLink, if_neg (not_not_intro h1), hst]
  | some existing =>
    by_cases hr : existing.applicant_id = ""
    · refine Or.inr (Or.inl ?_)
      simp only [generateHostedLink, if_neg (not_not_intro h1), hst]
      simp [hr]
    · cases pr with
      | error msg =>
        refine Or.inr (Or.inr (Or.inl ⟨msg, ?_⟩))
        simp only [generateHostedLink, if_neg (not_not_intro h1), hst]
        simp [hr]
      | ok data =>
        by_cases hu : data.url = ""
        · refine Or.inr (Or.inr (Or.inr (Or.inl ?_)))
          simp only [generateHostedLink, if_neg (not_not_intro h1), hst]
          simp [hr, hu]
        · refine Or.inr (Or.inr (Or.inr (Or.inr ⟨data, rfl, hu, ?_⟩)))
          simp only [generateHostedLink, if_neg (not_not_intro h1), hst]
          simp [hr, hu, linkBodyOf]

/-- Claim C9: every hosted-link invocation, successful or failed,
leaves the durable store exactly as it was and performs no store write;
on success the result is exactly the url returned by the provider
together with `ttlInSecs = 1800` and the request's `externalUserId` and
`levelName`. -/
theorem generateHostedLink_no_persist (store : Store)
    (pr : Except String LinkResp) (req : LinkReq) :
    (generateHostedLink store pr req).2.1 = store
    ∧ hasDbWrite (generateHostedLink store pr req).2.2 = false
    ∧ (∀ u t e l, (generateHostedLink store pr req).1 = .ok u t e l →
        t = 1800 ∧ e = req.externalUserId ∧ l = req.levelName
        ∧ ∃ data, pr = .ok data ∧ u = data.url ∧ data.url ≠ "") := by
  rcases generateHostedLink_shape store pr req with
    ⟨m, hs⟩ | hs | ⟨m, hs⟩ | hs | ⟨data, hpr, hu, hs⟩ <;>
    rw [hs] <;> refine ⟨rfl, by simp [hasDbWrite], ?_⟩ <;>
    intro u t e l h <;> simp only [] at h
  · simp at h
  · simp at h
  · simp at h
  · simp at h
  · simp only [LinkResult.ok.injEq] at h
    exact ⟨h.2.1.symm, h.2.2.1.symm, h.2.2.2.symm, data, hpr, h.1.symm, hu⟩

/-- Witness for C9 at a concrete input: a successful link issuance
against `storeU1`. -/
theorem generateHostedLink_no_persist_witness :
    (generateHostedLink storeU1 (.ok ⟨"http://x"⟩)
        ⟨.str "u1", .str "lvl", .undef⟩).2.1 = storeU1
    ∧ (1800 = 1800 ∧ JSValue.str "u1" = JSValue.str "u1"
        ∧ JSValue.str "lvl" = JSValue.str "lvl"
        ∧ ∃ data, (Except.ok ⟨"http://x"⟩ :
              Except String LinkResp) = .ok data
            ∧ "http://x" = data.url ∧ data.url ≠ "") :=
  ⟨(generateHostedLink_no_persist storeU1 (.ok ⟨"http://x"⟩)
      ⟨.str "u1", .str "lvl", .undef⟩).1,
   (generateHostedLink_no_persist storeU1 (.ok ⟨"http://x"⟩)
      ⟨.str "u1", .str "lvl", .undef⟩).2.2 "http://x" 1800 (.str "u1")
      (.str "lvl") (by decide)⟩
